import Mathlib

/-!
A shallow embedding of `src/luks_encrypt_usb.py` (an interactive USB LUKS
encryption manager) and proofs about the claims of its specification.

Modelling conventions:
* External tool results are inputs of the model: an `Option` value is `none`
  exactly when the corresponding Python call raised an exception
  (`subprocess` failure, JSON parse failure, ...).
* Operator input is a stream `stdin : Nat → String`; each `input()` /
  `getpass()` call of the script consumes the next index.  The three
  unbounded re-prompt loops of the script take a fuel argument; exhausted
  fuel yields the distinguished outcome `Outcome.fuelOut`.
* A run produces an `Outcome` (the `sys.exit` code) together with a trace of
  `Event`s recording, in order, every external tool invocation, every prompt
  shown, and the outcome of the two safety gates.  Python's `str.strip()` is
  embedded as `pyStrip`, `str.lower()` as `pyLower`, `str.split(sep)` and
  `str.splitlines()` as `pySplitChar`, `int(...)` as `pyToInt?`, and the
  substring test `pat in s` as `pyContains s pat`, all defined below by
  structural recursion so that every run of the model is kernel-computable.
-/

/-- Python `str.strip()`: drop whitespace from both ends of the string.
(The embedding uses `Char.isWhitespace`, which covers the ASCII whitespace
relevant to terminal input.) -/
def pyStrip (s : String) : String :=
  ⟨((s.data.dropWhile Char.isWhitespace).reverse.dropWhile
      Char.isWhitespace).reverse⟩

/-- Python `str.lower()`, character by character. -/
def pyLower (s : String) : String :=
  ⟨s.data.map Char.toLower⟩

/-- Splitting on one separator character, as Python `str.split(sep)` for a
one-character separator: `"a:b:c".split(":") == ["a","b","c"]`, and the
pieces around every occurrence are kept, empty pieces included. -/
def splitCharAux (sep : Char) : List Char → List Char → List String
  | [], acc => [⟨acc.reverse⟩]
  | ch :: rest, acc =>
    if ch = sep then ⟨acc.reverse⟩ :: splitCharAux sep rest []
    else splitCharAux sep rest (ch :: acc)

/-- Python `s.split(sep)` for a one-character separator `sep`; also the
embedding of `str.splitlines()` with `sep = '\n'` (the extra empty final
piece Python's `splitlines` drops is harmless to every use below). -/
def pySplitChar (s : String) (sep : Char) : List String :=
  splitCharAux sep s.data []

/-- Occurrence of a character pattern in a character list. -/
def containsFrom (pat : List Char) : List Char → Bool
  | [] => pat.isEmpty
  | c :: rest => pat.isPrefixOf (c :: rest) || containsFrom pat rest

/-- Python `pat in s` (substring containment; every pattern used by the
script is nonempty). -/
def pyContains (s pat : String) : Bool :=
  containsFrom pat.data s.data

/-- Digit-string value, `none` when empty or not all digits. -/
def pyDigits? (cs : List Char) : Option Nat :=
  if cs.isEmpty then none
  else if cs.all Char.isDigit then
    some (cs.foldl (fun n c => n * 10 + (c.toNat - 48)) 0)
  else none

/-- Python `int(s)` on an already-stripped string: optional sign followed by
decimal digits, `none` (a `ValueError` in the source) otherwise.  (Python's
digit-group underscores are not modelled; no claim depends on them.) -/
def pyToInt? (s : String) : Option Int :=
  match s.data with
  | '-' :: rest => (pyDigits? rest).map fun n => -(n : Int)
  | '+' :: rest => (pyDigits? rest).map fun n => (n : Int)
  | cs => (pyDigits? cs).map fun n => (n : Int)

/-- Python truthiness of an optional string (`None` and `""` are falsy). -/
def pyTruthyStr : Option String → Bool
  | none => false
  | some s => s != ""

/-- One child entry of an `lsblk --json` block device record. -/
structure LsblkChild where
  type : Option String := none
  fstype : Option String := none
  mountpoint : Option String := none
  deriving DecidableEq

/-- One top-level entry of an `lsblk --json` listing, with the fields the
script requests (`NAME,SIZE,TYPE,ROTA,MODEL,VENDOR,FSTYPE,MOUNTPOINT,RM`).
`name` is accessed as `block['name']` (required); the rest via `.get`. -/
structure LsblkEntry where
  name : String
  size : Option String := none
  type : Option String := none
  model : Option String := none
  vendor : Option String := none
  fstype : Option String := none
  mountpoint : Option String := none
  rm : Option Bool := none
  children : List LsblkChild := []
  deriving DecidableEq

/-- The device record built by `get_block_devices` (the Python dict with keys
`name, size, display_name, model, vendor, is_mounted`). -/
structure DeviceRec where
  name : String
  size : String
  display_name : String
  model : String
  vendor : String
  is_mounted : Bool
  deriving DecidableEq

/-- `is_mounted` of `get_block_devices`: the disk itself or any child
reports a non-empty mountpoint. -/
def entry_is_mounted (b : LsblkEntry) : Bool :=
  pyTruthyStr b.mountpoint || b.children.any fun c => pyTruthyStr c.mountpoint

/-- The record appended for a surviving block entry in `get_block_devices`
(lines 84-114 of the script). -/
def mk_device_rec (b : LsblkEntry) : DeviceRec :=
  let device_name := "/dev/" ++ b.name
  let size := b.size.getD "Unknown Size"
  let model := pyStrip (b.model.getD "")
  let vendor := pyStrip (b.vendor.getD "")
  let display_name :=
    if model != "" && vendor != "" then vendor ++ " " ++ model ++ " " ++ size
    else device_name ++ " " ++ size
  { name := device_name, size := size, display_name := display_name,
    model := model, vendor := vendor, is_mounted := entry_is_mounted b }

/-- The filter of `get_block_devices`: keep whole disks, drop NVMe-named
devices, drop non-removable devices (the three `continue`s of the loop). -/
def keep_block (b : LsblkEntry) : Bool :=
  b.type == some "disk" && !(pyContains (pyLower b.name) "nvme") &&
    b.rm.getD false

/-- `get_block_devices` restricted to its pure core: the loop over the parsed
`blockdevices` list (enumeration/parse failure is handled in `main_run`). -/
def get_block_devices : List LsblkEntry → List DeviceRec
  | [] => []
  | b :: rest =>
    if keep_block b then mk_device_rec b :: get_block_devices rest
    else get_block_devices rest

/-- Scan of `stdout.splitlines()` in `get_partition_table_type`: the first
line containing `"Partition Table:"` yields `line.split(":")[1]` (an
out-of-range index would raise, caught by the bare `except`, hence `none`). -/
def scan_pt_lines : List String → Option String
  | [] => none
  | line :: rest =>
    if pyContains line "Partition Table:" then (pySplitChar line ':')[1]?
    else scan_pt_lines rest

/-- `get_partition_table_type` (lines 117-125): the argument is the `parted`
stdout, `none` when the invocation raised.  Any failure or absence of the
label yields `"unknown"`; otherwise the segment after the first colon of the
first matching line, stripped and lower-cased. -/
def get_partition_table_type (parted_stdout : Option String) : String :=
  match parted_stdout with
  | none => "unknown"
  | some out =>
    match scan_pt_lines (pySplitChar out '\n') with
    | some seg => pyLower (pyStrip seg)
    | none => "unknown"

/-- `is_crypt_type` (lines 132-133): the entry has type `crypt` or
filesystem type `crypto_LUKS`. -/
def is_crypt_type (type fstype : Option String) : Bool :=
  type == some "crypt" || fstype == some "crypto_LUKS"

/-- `detect_luks_encryption` (lines 127-144): the argument is the parsed
scoped `lsblk` listing, `none` when the query or the JSON parse raised.  A
raised exception (including the `IndexError` on an empty `blockdevices`
list) is caught and yields `false`; the function never throws. -/
def detect_luks_encryption (lsblk_result : Option (List LsblkEntry)) : Bool :=
  match lsblk_result with
  | none => false
  | some [] => false
  | some (e :: _) =>
    is_crypt_type e.type e.fstype ||
      e.children.any fun c => is_crypt_type c.type c.fstype

/-- The encrypt confirmation sentence (line 257). -/
def encrypt_confirmation_text : String :=
  "I understand and want to encrypt this device"

/-- The re-encrypt confirmation sentence (line 238). -/
def reencrypt_confirmation_text : String :=
  "I understand and want to re-encrypt this device"

/-- A confirmation-sentence gate (lines 240 and 259): the raw operator input
is `.strip()`ed and compared for exact equality with the sentence. -/
def confirm_gate_accepts (raw sentence : String) : Bool :=
  pyStrip raw == sentence

/-- Acceptance test of one passphrase pair (lines 266-271): not rejected for
mismatch and not rejected as too short. -/
def accepts_pass_pair (p1 p2 : String) : Bool :=
  p1 == p2 && !(p1.length < 8)

/-- `check_root_privileges` (lines 159-162) as a predicate: `true` means the
check passes (effective uid 0); `false` means `sys.exit(1)`. -/
def check_root_privileges (euid : Nat) : Bool :=
  euid == 0

/-- Observable events of one run, in program order. -/
inductive Event where
  | toolLsblkList
  | toolLsblkDetect (dev : String)
  | toolParted (dev : String)
  | ptChecked (result : String)
  | promptShown (label : String)
  | confirmEncryptInput (s : String)
  | confirmReencryptInput (s : String)
  | checkedMapperPath (mapper : String)
  | toolLuksOpen (dev mapper : String)
  | toolLuksFormat (dev : String)
  | toolHeaderBackup (dev : String)
  deriving DecidableEq

/-- How one run ends: a `sys.exit` code (falling off the end of `main` is
`exited 0`), or fuel exhaustion of a re-prompt loop in the model. -/
inductive Outcome where
  | exited (code : Nat)
  | fuelOut
  deriving DecidableEq

/-- Events that mutate on-disk state.  `cryptsetup luksFormat` rewrites the
device; the header backup writes a file.  `cryptsetup luksOpen` only creates
an in-kernel device-mapper mapping and writes nothing to disk, and the
remaining events are read-only queries, prompts or checks. -/
def mutatesDisk : Event → Bool
  | .toolLuksFormat _ => true
  | .toolHeaderBackup _ => true
  | _ => false

/-- Recognizes the format-tool invocation event. -/
def isFormatEvent : Event → Bool
  | .toolLuksFormat _ => true
  | _ => false

/-- Recognizes the open-tool invocation event. -/
def isLuksOpenEvent : Event → Bool
  | .toolLuksOpen _ _ => true
  | _ => false

/-- The environment of one run: everything the script observes.
`luks_open_rc dev mapper` is `none` on success and `some rc` when
`cryptsetup luksOpen` exits with code `rc` (code 5 is the busy case; every
nonzero code leads to `sys.exit(1)` in both open paths). -/
structure Env where
  euid : Nat
  lsblk_all : Option (List LsblkEntry)
  lsblk_dev : String → Option (List LsblkEntry)
  parted_out : String → Option String
  mapper_exists : String → Bool
  luks_open_rc : String → String → Option Nat
  luks_format_ok : Bool
  stdin : Nat → String

/-- Prompt label of the device-selection prompt (line 184). -/
def select_prompt : String := "Enter the number of the device to encrypt/open"

/-- Prompt label of the encrypted-branch action prompt (line 204). -/
def action_prompt : String := "open, re-encrypt, or exit"

/-- Prompt label of the encrypted-branch mapper-name prompt (line 209). -/
def mapper_prompt_enc : String := "Enter mapper name"

/-- Prompt label of the post-format mapper-name prompt (line 293). -/
def mapper_prompt_post : String := "Enter mapper name to open LUKS volume"

/-- Prompt label of a passphrase prompt (`getpass`). -/
def passphrase_prompt : String := "Enter LUKS passphrase"

/-- Prompt label of the passphrase confirmation prompt. -/
def passphrase_confirm_prompt : String := "Confirm LUKS passphrase"

/-- Prompt label of a confirmation-sentence prompt (`input("> ")`). -/
def gate_prompt : String := "> "

/-- Result of the device-selection loop. -/
inductive SelRes where
  | exit (o : Outcome)
  | proceed (d : DeviceRec) (counter : Nat)
  deriving DecidableEq

/-- Result of the encrypted-branch action loop (`proceed` is the
re-encrypt `break` into the formatting path). -/
inductive ActRes where
  | exit (o : Outcome)
  | proceed (counter : Nat)
  deriving DecidableEq

/-- The device-selection loop (lines 183-196): quit on `q`, accept an
in-range 1-based index, re-prompt otherwise. -/
def select_loop (devices : List DeviceRec) (stdin : Nat → String)
    (counter : Nat) : Nat → SelRes × List Event
  | 0 => (SelRes.exit Outcome.fuelOut, [])
  | fuel + 1 =>
    let selection := pyStrip (stdin counter)
    let e0 := [Event.promptShown select_prompt]
    if pyLower selection == "q" then (SelRes.exit (Outcome.exited 0), e0)
    else
      match pyToInt? selection with
      | some n =>
        let idx : Int := n - 1
        if 0 ≤ idx then
          match devices[idx.toNat]? with
          | some d => (SelRes.proceed d (counter + 1), e0)
          | none =>
            let r := select_loop devices stdin (counter + 1) fuel
            (r.1, e0 ++ r.2)
        else
          let r := select_loop devices stdin (counter + 1) fuel
          (r.1, e0 ++ r.2)
      | none =>
        let r := select_loop devices stdin (counter + 1) fuel
        (r.1, e0 ++ r.2)

/-- The encrypted-branch `open` path (lines 208-235): mapper prompt, empty
name is fatal, existing `/dev/mapper` path is fatal before any tool runs,
otherwise passphrase prompt and one `luksOpen` invocation whose failure
(any nonzero exit code, 5 included) is fatal. -/
def open_branch (env : Env) (device_path : String) (counter : Nat) :
    Outcome × List Event :=
  let mapper_name := pyStrip (env.stdin counter)
  let e0 := [Event.promptShown mapper_prompt_enc]
  if mapper_name == "" then (Outcome.exited 1, e0)
  else
    let e1 := e0 ++ [Event.checkedMapperPath mapper_name]
    if env.mapper_exists ("/dev/mapper/" ++ mapper_name) then
      (Outcome.exited 1, e1)
    else
      let e2 := e1 ++ [Event.promptShown passphrase_prompt,
        Event.toolLuksOpen device_path mapper_name]
      match env.luks_open_rc device_path mapper_name with
      | none => (Outcome.exited 0, e2)
      | some _ => (Outcome.exited 1, e2)

/-- The encrypted-branch action loop (lines 203-246): `exit` quits, `open`
runs the open path (every branch of which exits), `re-encrypt` asks its
confirmation sentence and on a match breaks into the formatting path while
a mismatch exits with code 0; anything else re-prompts. -/
def action_loop (env : Env) (device_path : String) (counter : Nat) :
    Nat → ActRes × List Event
  | 0 => (ActRes.exit Outcome.fuelOut, [])
  | fuel + 1 =>
    let action := pyLower (pyStrip (env.stdin counter))
    let e0 := [Event.promptShown action_prompt]
    if action == "exit" then (ActRes.exit (Outcome.exited 0), e0)
    else if action == "open" then
      let r := open_branch env device_path (counter + 1)
      (ActRes.exit r.1, e0 ++ r.2)
    else if action == "re-encrypt" then
      let s := pyStrip (env.stdin (counter + 1))
      let e1 := e0 ++ [Event.promptShown gate_prompt,
        Event.confirmReencryptInput s]
      if confirm_gate_accepts (env.stdin (counter + 1))
          reencrypt_confirmation_text then
        (ActRes.proceed (counter + 2), e1)
      else (ActRes.exit (Outcome.exited 0), e1)
    else
      let r := action_loop env device_path (counter + 1) fuel
      (r.1, e0 ++ r.2)

/-- The passphrase-collection loop (lines 263-271): two `getpass` prompts
per round; the pair is accepted when both entries match and the first has
at least 8 characters, otherwise the loop repeats.  Returns the accepted
passphrase and the next stream index. -/
def collect_passphrase (stdin : Nat → String) (counter : Nat) :
    Nat → Option (String × Nat) × List Event
  | 0 => (none, [])
  | fuel + 1 =>
    let p1 := stdin counter
    let p2 := stdin (counter + 1)
    let evs := [Event.promptShown passphrase_prompt,
      Event.promptShown passphrase_confirm_prompt]
    if accepts_pass_pair p1 p2 then (some (p1, counter + 2), evs)
    else
      let r := collect_passphrase stdin (counter + 2) fuel
      (r.1, evs ++ r.2)

/-- The post-format open block (lines 293-314): mapper prompt, empty name is
fatal, existing `/dev/mapper` path is fatal before any tool runs, otherwise
one `luksOpen` invocation reusing the already collected passphrase; success
falls through to the end of `main` (exit 0), any failure exits 1. -/
def post_format_open (env : Env) (device_path : String) (counter : Nat) :
    Outcome × List Event :=
  let mapper_name := pyStrip (env.stdin counter)
  let e0 := [Event.promptShown mapper_prompt_post]
  if mapper_name == "" then (Outcome.exited 1, e0)
  else
    let e1 := e0 ++ [Event.checkedMapperPath mapper_name]
    if env.mapper_exists ("/dev/mapper/" ++ mapper_name) then
      (Outcome.exited 1, e1)
    else
      let e2 := e1 ++ [Event.toolLuksOpen device_path mapper_name]
      match env.luks_open_rc device_path mapper_name with
      | none => (Outcome.exited 0, e2)
      | some _ => (Outcome.exited 1, e2)

/-- The tail of `main` from the partition-table check onward (lines
249-316): GPT gate (any other value is fatal), encryption confirmation
sentence gate (mismatch exits 0), passphrase collection, the `luksFormat`
invocation (failure is fatal), the best-effort header backup (invoked
regardless of its own success; it never aborts the run), then the
post-format open block. -/
def encrypt_tail (env : Env) (device_path : String) (counter fuel : Nat) :
    Outcome × List Event :=
  let pt_type := get_partition_table_type (env.parted_out device_path)
  let e0 := [Event.toolParted device_path, Event.ptChecked pt_type]
  if pt_type != "gpt" then (Outcome.exited 1, e0)
  else
    let raw := env.stdin counter
    let e1 := e0 ++ [Event.promptShown gate_prompt,
      Event.confirmEncryptInput (pyStrip raw)]
    if !(confirm_gate_accepts raw encrypt_confirmation_text) then
      (Outcome.exited 0, e1)
    else
      let pres := collect_passphrase env.stdin (counter + 1) fuel
      match pres.1 with
      | none => (Outcome.fuelOut, e1 ++ pres.2)
      | some (_passphrase, c2) =>
        let e2 := e1 ++ pres.2 ++ [Event.toolLuksFormat device_path]
        if env.luks_format_ok then
          let r := post_format_open env device_path c2
          (r.1, e2 ++ Event.toolHeaderBackup device_path :: r.2)
        else (Outcome.exited 1, e2)

/-- `main` (lines 165-316): root check, device enumeration, selection loop,
encryption detection, then either the encrypted-branch action loop (whose
re-encrypt `break` falls through into the formatting tail) or the
formatting tail directly. -/
def main_run (env : Env) (fuel : Nat) : Outcome × List Event :=
  if !(check_root_privileges env.euid) then (Outcome.exited 1, [])
  else
    match env.lsblk_all with
    | none => (Outcome.exited 1, [Event.toolLsblkList])
    | some blocks =>
      let suitable_devices := get_block_devices blocks
      if suitable_devices.isEmpty then (Outcome.exited 0, [Event.toolLsblkList])
      else
        let sel := select_loop suitable_devices env.stdin 0 fuel
        match sel.1 with
        | SelRes.exit o => (o, Event.toolLsblkList :: sel.2)
        | SelRes.proceed d c =>
          let device_path := d.name
          let pre := Event.toolLsblkList :: sel.2 ++
            [Event.toolLsblkDetect device_path]
          if detect_luks_encryption (env.lsblk_dev device_path) then
            let act := action_loop env device_path c fuel
            match act.1 with
            | ActRes.exit o => (o, pre ++ act.2)
            | ActRes.proceed c2 =>
              let r := encrypt_tail env device_path c2 fuel
              (r.1, pre ++ act.2 ++ r.2)
          else
            let r := encrypt_tail env device_path c fuel
            (r.1, pre ++ r.2)

/-! ## Concrete environments for witnesses -/

/-- A removable, non-NVMe USB disk entry as `lsblk` reports it. -/
def sdbEntry : LsblkEntry :=
  { name := "sdb", type := some "disk", rm := some true }

/-- An environment whose run performs the complete encrypt flow: one
suitable unencrypted GPT device, matching confirmation, matching long
passphrases, a fresh mapper name, and successful tools. -/
def envHappy : Env :=
  { euid := 0,
    lsblk_all := some [sdbEntry],
    lsblk_dev := fun _ => some [sdbEntry],
    parted_out := fun _ => some "Partition Table: gpt",
    mapper_exists := fun _ => false,
    luks_open_rc := fun _ _ => none,
    luks_format_ok := true,
    stdin := fun n =>
      if n == 0 then "1"
      else if n == 1 then "I understand and want to encrypt this device"
      else if n == 2 then "longenough1"
      else if n == 3 then "longenough1"
      else "usbmap" }

/-- Like `envHappy` but the operator answers the encryption confirmation
prompt with a mismatching sentence. -/
def envC4 : Env :=
  { envHappy with stdin := fun n => if n == 0 then "1" else "nope" }

/-- Like `envHappy` but the device is already LUKS-encrypted and the
operator chooses `re-encrypt` and then types a wrong confirmation. -/
def envReenc : Env :=
  { envHappy with
    lsblk_dev := fun _ =>
      some [{ name := "sdb", type := some "disk",
              fstype := some "crypto_LUKS" }],
    stdin := fun n =>
      if n == 0 then "1" else if n == 1 then "re-encrypt" else "wrong" }

/-- Like `envHappy` but `parted` reports an MBR (`msdos`) partition table. -/
def envMbr : Env :=
  { envHappy with parted_out := fun _ => some "Partition Table: msdos" }

/-- An environment where every `/dev/mapper` path already exists and the
operator always supplies the mapper name `usbmap`. -/
def envConflict : Env :=
  { envHappy with mapper_exists := fun _ => true, stdin := fun _ => "usbmap" }

/-- Like `envHappy` but run without root privileges. -/
def envNonRoot : Env :=
  { envHappy with euid := 1000 }

/-- Like `envHappy` but the mapper-name answer (stream index 4) is blank. -/
def envEmptyMapper : Env :=
  { envHappy with
    stdin := fun n =>
      if n == 0 then "1"
      else if n == 1 then "I understand and want to encrypt this device"
      else if n == 2 then "longenough1"
      else if n == 3 then "longenough1"
      else "  " }

/-- Passphrase stream for the C7 witness: a too-short matching pair, then a
long matching pair. -/
def stdinC7 : Nat → String := fun n =>
  if n == 0 then "abc123" else if n == 1 then "abc123" else "longenough1"

/-- The trace segment of the `envHappy` run preceding its format
invocation. -/
def happyPre : List Event :=
  [Event.toolLsblkList, Event.promptShown select_prompt,
   Event.toolLsblkDetect "/dev/sdb", Event.toolParted "/dev/sdb",
   Event.ptChecked "gpt", Event.promptShown gate_prompt,
   Event.confirmEncryptInput encrypt_confirmation_text,
   Event.promptShown passphrase_prompt,
   Event.promptShown passphrase_confirm_prompt]

/-- The trace segment of the `envHappy` run following its format
invocation. -/
def happyPost : List Event :=
  [Event.toolHeaderBackup "/dev/sdb",
   Event.promptShown mapper_prompt_post, Event.checkedMapperPath "usbmap",
   Event.toolLuksOpen "/dev/sdb" "usbmap"]

/-- A LUKS-encrypted device entry as the scoped `lsblk` query reports
it. -/
def cryptEntry : LsblkEntry :=
  { name := "sdb", type := some "crypt" }

/-! ## Trace helper lemmas -/

/-- A format-tool event mutates the disk. -/
theorem mutatesDisk_of_isFormatEvent (e : Event) (h : isFormatEvent e = true) :
    mutatesDisk e = true := by
  cases e <;> simp_all [isFormatEvent, mutatesDisk]

/-- Splitting a concatenation at an element satisfying `P` when the left
part contains none: the split point lies in the right part. -/
theorem append_split_of_not_left {α : Type} (P : α → Prop) :
    ∀ (l₁ l₂ pre post : List α) (x : α),
      l₁ ++ l₂ = pre ++ x :: post → P x → (∀ a ∈ l₁, ¬ P a) →
      ∃ p₂, pre = l₁ ++ p₂ ∧ l₂ = p₂ ++ x :: post := by
  intro l₁
  induction l₁ with
  | nil => intro l₂ pre post x h _ _; exact ⟨pre, rfl, h⟩
  | cons a l ih =>
    intro l₂ pre post x h hx hmem
    cases pre with
    | nil =>
      simp only [List.nil_append, List.cons_append, List.cons.injEq] at h
      exact absurd (h.1 ▸ hx) (hmem a (by simp))
    | cons p pre' =>
      simp only [List.cons_append, List.cons.injEq] at h
      obtain ⟨rfl, h₂⟩ := h
      obtain ⟨p₂, rfl, hl₂⟩ :=
        ih l₂ pre' post x h₂ hx (fun b hb => hmem b (List.mem_cons_of_mem _ hb))
      exact ⟨p₂, by simp, hl₂⟩

/-- When a list starts with its only element satisfying `P`, a split at an
element satisfying `P` is a split at the head. -/
theorem head_split_unique {α : Type} (P : α → Prop) (x₀ x : α)
    (rest p₂ post : List α) (h : x₀ :: rest = p₂ ++ x :: post) (hx : P x)
    (hrest : ∀ a ∈ rest, ¬ P a) : p₂ = [] ∧ x = x₀ ∧ post = rest := by
  cases p₂ with
  | nil =>
    simp only [List.nil_append, List.cons.injEq] at h
    exact ⟨rfl, h.1.symm, h.2.symm⟩
  | cons b p' =>
    simp only [List.cons_append, List.cons.injEq] at h
    exact absurd hx (hrest x (h.2 ▸ by simp))

/-- Every event of the device-selection loop is a prompt. -/
theorem select_loop_events_prompt :
    ∀ (fuel : Nat) (devices : List DeviceRec) (stdin : Nat → String)
      (c : Nat) (e : Event), e ∈ (select_loop devices stdin c fuel).2 →
      ∃ s, e = Event.promptShown s := by
  intro fuel
  induction fuel with
  | zero => intro devices stdin c e he; simp [select_loop] at he
  | succ fuel ih =>
    intro devices stdin c e he
    simp only [select_loop] at he
    split at he
    · simp at he; exact ⟨_, he⟩
    · split at he
      · split at he
        · split at he
          · simp at he; exact ⟨_, he⟩
          · simp at he
            rcases he with he | he
            · exact ⟨_, he⟩
            · exact ih _ _ _ _ he
        · simp at he
          rcases he with he | he
          · exact ⟨_, he⟩
          · exact ih _ _ _ _ he
      · simp at he
        rcases he with he | he
        · exact ⟨_, he⟩
        · exact ih _ _ _ _ he

/-- Every event of the passphrase-collection loop is a prompt. -/
theorem collect_passphrase_events_prompt :
    ∀ (fuel : Nat) (stdin : Nat → String) (c : Nat) (e : Event),
      e ∈ (collect_passphrase stdin c fuel).2 →
      ∃ s, e = Event.promptShown s := by
  intro fuel
  induction fuel with
  | zero => intro stdin c e he; simp [collect_passphrase] at he
  | succ fuel ih =>
    intro stdin c e he
    simp only [collect_passphrase] at he
    split at he
    · simp at he
      rcases he with he | he <;> exact ⟨_, he⟩
    · simp at he
      rcases he with he | he | he
      · exact ⟨_, he⟩
      · exact ⟨_, he⟩
      · exact ih _ _ _ he

/-- No event of the encrypted-branch open path mutates the disk. -/
theorem open_branch_events_no_mutate (env : Env) (dev : String) (c : Nat) :
    ∀ e ∈ (open_branch env dev c).2, mutatesDisk e = false := by
  intro e he
  simp only [open_branch] at he
  split at he
  · simp at he; subst he; rfl
  · split at he
    · simp at he
      rcases he with he | he <;> (subst he; rfl)
    · split at he <;>
      · simp at he
        rcases he with he | he | he | he <;> (subst he; rfl)

/-- No event of the post-format open block mutates the disk. -/
theorem post_format_open_events_no_mutate (env : Env) (dev : String)
    (c : Nat) : ∀ e ∈ (post_format_open env dev c).2, mutatesDisk e = false := by
  intro e he
  simp only [post_format_open] at he
  split at he
  · simp at he; subst he; rfl
  · split at he
    · simp at he
      rcases he with he | he <;> (subst he; rfl)
    · split at he <;>
      · simp at he
        rcases he with he | he | he <;> (subst he; rfl)

/-- No event of the encrypted-branch action loop mutates the disk. -/
theorem action_loop_events_no_mutate :
    ∀ (fuel : Nat) (env : Env) (dev : String) (c : Nat),
      ∀ e ∈ (action_loop env dev c fuel).2, mutatesDisk e = false := by
  intro fuel
  induction fuel with
  | zero => intro env dev c e he; simp [action_loop] at he
  | succ fuel ih =>
    intro env dev c e he
    simp only [action_loop] at he
    split at he
    · simp at he; subst he; rfl
    · split at he
      · simp at he
        rcases he with he | he
        · subst he; rfl
        · exact open_branch_events_no_mutate env dev (c + 1) e he
      · split at he
        · split at he <;>
          · simp at he
            rcases he with he | he | he <;> (subst he; rfl)
        · simp at he
          rcases he with he | he
          · subst he; rfl
          · exact ih env dev (c + 1) e he

/-- The formatting tail reaches the format-tool invocation only after the
partition-table check yielded `"gpt"` and the trimmed confirmation input
equalled the encryption confirmation sentence, with nothing disk-mutating
before it. -/
theorem encrypt_tail_format_gated (env : Env) (dev : String) (c fuel : Nat)
    (pre post : List Event) (dev' : String)
    (h : (encrypt_tail env dev c fuel).2 =
      pre ++ Event.toolLuksFormat dev' :: post) :
    Event.ptChecked "gpt" ∈ pre ∧
    Event.confirmEncryptInput encrypt_confirmation_text ∈ pre ∧
    ∀ e ∈ pre, mutatesDisk e = false := by
  by_cases hpt : get_partition_table_type (env.parted_out dev) = "gpt"
  case neg =>
    exfalso
    have hne : (get_partition_table_type (env.parted_out dev) != "gpt") = true := by
      simpa [bne_iff_ne] using hpt
    simp only [encrypt_tail, hne, if_true] at h
    have hmem : Event.toolLuksFormat dev' ∈
        pre ++ Event.toolLuksFormat dev' :: post := by simp
    rw [← h] at hmem
    simp at hmem
  case pos =>
    have heq : (get_partition_table_type (env.parted_out dev) != "gpt") = false := by
      simp [hpt]
    by_cases hcg : confirm_gate_accepts (env.stdin c) encrypt_confirmation_text = true
    case neg =>
      exfalso
      have hcg' : confirm_gate_accepts (env.stdin c) encrypt_confirmation_text = false := by
        simpa using hcg
      simp only [encrypt_tail, heq, hcg', Bool.not_false, if_true,
        Bool.false_eq_true, if_false] at h
      have hmem : Event.toolLuksFormat dev' ∈
          pre ++ Event.toolLuksFormat dev' :: post := by simp
      rw [← h] at hmem
      simp at hmem
    case pos =>
      have hstrip : pyStrip (env.stdin c) = encrypt_confirmation_text := by
        simpa [confirm_gate_accepts] using hcg
      cases hcp : (collect_passphrase env.stdin (c + 1) fuel).1 with
      | none =>
        exfalso
        simp only [encrypt_tail, heq, hcg, Bool.not_true, Bool.false_eq_true,
          if_false, hcp] at h
        have hmem : Event.toolLuksFormat dev' ∈
            pre ++ Event.toolLuksFormat dev' :: post := by simp
        rw [← h] at hmem
        simp at hmem
        obtain ⟨s, hs⟩ :=
            collect_passphrase_events_prompt fuel env.stdin (c + 1) _ hmem
        exact Event.noConfusion hs
      | some pc =>
        obtain ⟨pass, c2⟩ := pc
        have hfmt : ∀ a ∈ ([Event.toolParted dev, Event.ptChecked "gpt",
            Event.promptShown gate_prompt,
            Event.confirmEncryptInput (pyStrip (env.stdin c))] : List Event) ++
            (collect_passphrase env.stdin (c + 1) fuel).2,
            ¬ isFormatEvent a = true := by
          intro a ha
          rw [List.mem_append] at ha
          rcases ha with ha | ha
          · simp only [List.mem_cons, List.not_mem_nil, or_false] at ha
            rcases ha with rfl | rfl | rfl | rfl <;> simp [isFormatEvent]
          · obtain ⟨s, hs⟩ :=
              collect_passphrase_events_prompt fuel env.stdin (c + 1) _ ha
            subst hs; simp [isFormatEvent]
        by_cases hfo : env.luks_format_ok = true
        case pos =>
          simp only [encrypt_tail, heq, hcg, Bool.not_true, Bool.false_eq_true,
            if_false, hcp, hfo, if_true, hpt] at h
          have h' : (([Event.toolParted dev, Event.ptChecked "gpt",
              Event.promptShown gate_prompt,
              Event.confirmEncryptInput (pyStrip (env.stdin c))] : List Event) ++
              (collect_passphrase env.stdin (c + 1) fuel).2) ++
              (Event.toolLuksFormat dev :: Event.toolHeaderBackup dev ::
                (post_format_open env dev c2).2) =
              pre ++ Event.toolLuksFormat dev' :: post := by
            simpa [List.append_assoc] using h
          obtain ⟨p₂, rfl, htl⟩ := append_split_of_not_left
            (fun e => isFormatEvent e = true) _ _ pre post _ h' rfl hfmt
          obtain ⟨hp₂, hx, hpost⟩ := head_split_unique
            (fun e => isFormatEvent e = true) _ _ _ _ _ htl rfl
            (by
              intro a ha hfa
              rcases List.mem_cons.mp ha with rfl | ha
              · simp [isFormatEvent] at hfa
              · have hm := post_format_open_events_no_mutate env dev c2 a ha
                rw [mutatesDisk_of_isFormatEvent a hfa] at hm
                simp at hm)
          subst hp₂
          refine ⟨?_, ?_, ?_⟩
          · simp
          · rw [← hstrip]; simp
          · intro e he
            simp only [List.append_nil, List.mem_append, List.mem_cons,
              List.not_mem_nil, or_false] at he
            rcases he with (rfl | rfl | rfl | rfl) | he
            · rfl
            · rfl
            · rfl
            · rfl
            · obtain ⟨s, hs⟩ :=
                collect_passphrase_events_prompt fuel env.stdin (c + 1) _ he
              subst hs; rfl
        case neg =>
          have hfo' : env.luks_format_ok = false := by simpa using hfo
          simp only [encrypt_tail, heq, hcg, Bool.not_true, Bool.false_eq_true,
            if_false, hcp, hfo', hpt] at h
          have h' : (([Event.toolParted dev, Event.ptChecked "gpt",
              Event.promptShown gate_prompt,
              Event.confirmEncryptInput (pyStrip (env.stdin c))] : List Event) ++
              (collect_passphrase env.stdin (c + 1) fuel).2) ++
              (Event.toolLuksFormat dev :: ([] : List Event)) =
              pre ++ Event.toolLuksFormat dev' :: post := by
            simpa [List.append_assoc] using h
          obtain ⟨p₂, rfl, htl⟩ := append_split_of_not_left
            (fun e => isFormatEvent e = true) _ _ pre post _ h' rfl hfmt
          obtain ⟨hp₂, hx, hpost⟩ := head_split_unique
            (fun e => isFormatEvent e = true) _ _ _ _ _ htl rfl
            (by intro a ha; exact absurd ha (List.not_mem_nil a))
          subst hp₂
          refine ⟨?_, ?_, ?_⟩
          · simp
          · rw [← hstrip]; simp
          · intro e he
            simp only [List.append_nil, List.mem_append, List.mem_cons,
              List.not_mem_nil, or_false] at he
            rcases he with (rfl | rfl | rfl | rfl) | he
            · rfl
            · rfl
            · rfl
            · rfl
            · obtain ⟨s, hs⟩ :=
                collect_passphrase_events_prompt fuel env.stdin (c + 1) _ he
              subst hs; rfl

/-- Lifting the format-gating property along a disk-read-only trace segment
preceding the formatting tail. -/
theorem trace_format_gated_lift (A tail pre post : List Event) (dev' : String)
    (hA : ∀ e ∈ A, mutatesDisk e = false)
    (htail : ∀ pre2 post2 d2,
      tail = pre2 ++ Event.toolLuksFormat d2 :: post2 →
      Event.ptChecked "gpt" ∈ pre2 ∧
      Event.confirmEncryptInput encrypt_confirmation_text ∈ pre2 ∧
      ∀ e ∈ pre2, mutatesDisk e = false)
    (h : A ++ tail = pre ++ Event.toolLuksFormat dev' :: post) :
    Event.ptChecked "gpt" ∈ pre ∧
    Event.confirmEncryptInput encrypt_confirmation_text ∈ pre ∧
    ∀ e ∈ pre, mutatesDisk e = false := by
  obtain ⟨p₂, rfl, htl⟩ := append_split_of_not_left
    (fun e => isFormatEvent e = true) A tail pre post _ h rfl
    (by
      intro a ha hfa
      have hm := hA a ha
      rw [mutatesDisk_of_isFormatEvent a hfa] at hm
      simp at hm)
  obtain ⟨h1, h2, h3⟩ := htail p₂ post dev' htl
  refine ⟨List.mem_append_right A h1, List.mem_append_right A h2, ?_⟩
  intro e he
  rcases List.mem_append.mp he with he | he
  · exact hA e he
  · exact h3 e he

/-- C1: in every run, the irreversible `cryptsetup luksFormat` invocation is
preceded by a partition-table check that returned exactly `"gpt"` and by an
operator confirmation whose trimmed input equalled the exact encryption
confirmation sentence, and every event before it is free of on-disk
mutation. -/
theorem c1_format_requires_gates (env : Env) (fuel : Nat)
    (pre post : List Event) (dev : String)
    (h : (main_run env fuel).2 = pre ++ Event.toolLuksFormat dev :: post) :
    Event.ptChecked "gpt" ∈ pre ∧
    Event.confirmEncryptInput encrypt_confirmation_text ∈ pre ∧
    ∀ e ∈ pre, mutatesDisk e = false := by
  by_cases hroot : check_root_privileges env.euid = true
  case neg =>
    have hroot' : check_root_privileges env.euid = false := by simpa using hroot
    exfalso
    simp only [main_run, hroot', Bool.not_false, if_true] at h
    have hmem : Event.toolLuksFormat dev ∈
        pre ++ Event.toolLuksFormat dev :: post := by simp
    rw [← h] at hmem
    simp at hmem
  case pos =>
    cases hl : env.lsblk_all with
    | none =>
      exfalso
      simp only [main_run, hroot, Bool.not_true, Bool.false_eq_true, if_false,
        hl] at h
      have hmem : Event.toolLuksFormat dev ∈
          pre ++ Event.toolLuksFormat dev :: post := by simp
      rw [← h] at hmem
      simp at hmem
    | some blocks =>
      by_cases hemp : (get_block_devices blocks).isEmpty = true
      case pos =>
        exfalso
        simp only [main_run, hroot, Bool.not_true, Bool.false_eq_true, if_false,
          hl, hemp, if_true] at h
        have hmem : Event.toolLuksFormat dev ∈
            pre ++ Event.toolLuksFormat dev :: post := by simp
        rw [← h] at hmem
        simp at hmem
      case neg =>
        have hemp' : (get_block_devices blocks).isEmpty = false := by
          simpa using hemp
        cases hsel : (select_loop (get_block_devices blocks) env.stdin 0 fuel).1 with
        | exit o =>
          exfalso
          simp only [main_run, hroot, Bool.not_true, Bool.false_eq_true,
            if_false, hl, hemp', hsel] at h
          have hmem : Event.toolLuksFormat dev ∈
              pre ++ Event.toolLuksFormat dev :: post := by simp
          rw [← h] at hmem
          simp at hmem
          obtain ⟨s, hs⟩ := select_loop_events_prompt fuel
            (get_block_devices blocks) env.stdin 0 _ hmem
          exact Event.noConfusion hs
        | proceed d c =>
          have hselA : ∀ e ∈ Event.toolLsblkList ::
              (select_loop (get_block_devices blocks) env.stdin 0 fuel).2 ++
              [Event.toolLsblkDetect d.name], mutatesDisk e = false := by
            intro e he
            rcases List.mem_cons.mp he with rfl | he
            · rfl
            · rcases List.mem_append.mp he with he | he
              · obtain ⟨s, hs⟩ := select_loop_events_prompt fuel
                  (get_block_devices blocks) env.stdin 0 _ he
                subst hs; rfl
              · simp at he; subst he; rfl
          by_cases hdet : detect_luks_encryption (env.lsblk_dev d.name) = true
          case pos =>
            cases hact : (action_loop env d.name c fuel).1 with
            | exit o =>
              exfalso
              simp only [main_run, hroot, Bool.not_true, Bool.false_eq_true,
                if_false, hl, hemp', hsel, hdet, if_true, hact] at h
              have hmem : Event.toolLuksFormat dev ∈
                  pre ++ Event.toolLuksFormat dev :: post := by simp
              rw [← h] at hmem
              simp at hmem
              rcases hmem with hmem | hmem
              · obtain ⟨s, hs⟩ := select_loop_events_prompt fuel
                  (get_block_devices blocks) env.stdin 0 _ hmem
                exact Event.noConfusion hs
              · have hm := action_loop_events_no_mutate fuel env d.name c _ hmem
                simp [mutatesDisk] at hm
            | proceed c2 =>
              simp only [main_run, hroot, Bool.not_true, Bool.false_eq_true,
                if_false, hl, hemp', hsel, hdet, if_true, hact] at h
              have h' : (Event.toolLsblkList ::
                  (select_loop (get_block_devices blocks) env.stdin 0 fuel).2 ++
                  [Event.toolLsblkDetect d.name] ++
                  (action_loop env d.name c fuel).2) ++
                  (encrypt_tail env d.name c2 fuel).2 =
                  pre ++ Event.toolLuksFormat dev :: post := by
                simpa [List.append_assoc] using h
              refine trace_format_gated_lift _ _ pre post dev ?_ ?_ h'
              · intro e he
                rcases List.mem_append.mp he with he | he
                · exact hselA e he
                · exact action_loop_events_no_mutate fuel env d.name c e he
              · intro pre2 post2 d2 heq
                exact encrypt_tail_format_gated env d.name c2 fuel pre2 post2 d2 heq
          case neg =>
            have hdet' : detect_luks_encryption (env.lsblk_dev d.name) = false := by
              simpa using hdet
            simp only [main_run, hroot, Bool.not_true, Bool.false_eq_true,
              if_false, hl, hemp', hsel, hdet', if_false] at h
            have h' : (Event.toolLsblkList ::
                (select_loop (get_block_devices blocks) env.stdin 0 fuel).2 ++
                [Event.toolLsblkDetect d.name]) ++
                (encrypt_tail env d.name c fuel).2 =
                pre ++ Event.toolLuksFormat dev :: post := by
              simpa [List.append_assoc] using h
            refine trace_format_gated_lift _ _ pre post dev hselA ?_ h'
            intro pre2 post2 d2 heq
            exact encrypt_tail_format_gated env d.name c fuel pre2 post2 d2 heq

/-! ## Claim theorems -/

/-- C2, counterexample: the code does not normalise the partition-table
label into the enum `{gpt, mbr, unknown, other}` — on `parted` output for
an MBR disk (which `parted` prints as `msdos`) it returns the raw string
`"msdos"`, outside the claimed set. -/
theorem c2_counterexample :
    get_partition_table_type (some "Partition Table: msdos") = "msdos" ∧
    "msdos" ≠ "gpt" ∧ "msdos" ≠ "mbr" ∧ "msdos" ≠ "unknown" ∧
    "msdos" ≠ "other" := by
  decide

/-- The line scan yields nothing when no line carries the label. -/
theorem scan_pt_lines_none (lines : List String)
    (h : ∀ line ∈ lines, pyContains line "Partition Table:" = false) :
    scan_pt_lines lines = none := by
  induction lines with
  | nil => rfl
  | cons l ls ih =>
    have h0 : pyContains l "Partition Table:" = false := h l (by simp)
    simp only [scan_pt_lines, h0, Bool.false_eq_true, if_false]
    exact ih fun x hx => h x (List.mem_cons_of_mem _ hx)

/-- C2, amended: `get_partition_table_type` returns `"unknown"` on a failed
inspection or when no output line carries the `"Partition Table:"` label;
otherwise it returns the lower-cased trimmed text after the first colon of
the first matching line — which can lie outside `{gpt, mbr, unknown,
other}` (e.g. `"msdos"`) — and the formatting path proceeds past its gate
if and only if that value equals exactly `"gpt"`: on any other value
`main` exits with status 1 and the format tool is never invoked. -/
theorem c2_partition_table_amended :
    get_partition_table_type none = "unknown" ∧
    (∀ out, (∀ line ∈ pySplitChar out '\n',
        pyContains line "Partition Table:" = false) →
      get_partition_table_type (some out) = "unknown") ∧
    get_partition_table_type
      (some "Model: Foo\nPartition Table: gpt\nDisk Flags:") = "gpt" ∧
    (∀ env dev c fuel,
      get_partition_table_type (env.parted_out dev) ≠ "gpt" →
      (encrypt_tail env dev c fuel).1 = Outcome.exited 1 ∧
      ∀ e ∈ (encrypt_tail env dev c fuel).2, isFormatEvent e = false) := by
  refine ⟨rfl, ?_, by decide, ?_⟩
  · intro out hno
    simp only [get_partition_table_type, scan_pt_lines_none _ hno]
  · intro env dev c fuel hne
    have hb : (get_partition_table_type (env.parted_out dev) != "gpt") = true := by
      simpa [bne_iff_ne] using hne
    simp only [encrypt_tail, hb, if_true]
    refine ⟨by trivial, ?_⟩
    intro e he
    simp only [List.mem_cons, List.not_mem_nil, or_false] at he
    rcases he with rfl | rfl <;> rfl

/-- C2, witness: a label-free output yields `"unknown"`, and on the MBR
environment the formatting tail exits 1 without a format invocation. -/
theorem c2_witness :
    get_partition_table_type (some "Disk Flags:") = "unknown" ∧
    ((encrypt_tail envMbr "/dev/sdb" 1 3).1 = Outcome.exited 1 ∧
      ∀ e ∈ (encrypt_tail envMbr "/dev/sdb" 1 3).2, isFormatEvent e = false) :=
  ⟨c2_partition_table_amended.2.1 "Disk Flags:" (by decide),
   c2_partition_table_amended.2.2.2 envMbr "/dev/sdb" 1 3 (by decide)⟩

/-- C3, counterexample: the claim says the exact sentence followed by a
trailing space is rejected, but the gate strips the input first, so that
input is accepted. -/
theorem c3_counterexample :
    confirm_gate_accepts "I understand and want to encrypt this device "
      encrypt_confirmation_text = true := by
  decide

/-- C3, amended: a confirmation gate accepts exactly when the input,
trimmed of whitespace surrounding the whole input, equals the literal
sentence; hence the exact sentence with a trailing space is accepted (the
trailing space is removed by the trim), while interior deviations (e.g. a
doubled interior space) are rejected. -/
theorem c3_confirmation_gate_amended :
    (∀ raw sentence, confirm_gate_accepts raw sentence = true ↔
      pyStrip raw = sentence) ∧
    confirm_gate_accepts (encrypt_confirmation_text ++ " ")
      encrypt_confirmation_text = true ∧
    confirm_gate_accepts "I understand and  want to encrypt this device"
      encrypt_confirmation_text = false := by
  refine ⟨?_, by decide, by decide⟩
  intro raw sentence
  simp [confirm_gate_accepts]

/-- C5: encryption detection returns `true` exactly when the (first)
enumerated device entry or one of its child entries has type `"crypt"` or
filesystem type `"crypto_LUKS"`; a failed query — `none`, and likewise the
caught `IndexError` on an empty listing — yields `false`, and the function
is total (never throws). -/
theorem c5_detect_encryption_iff :
    (∀ e rest, detect_luks_encryption (some (e :: rest)) = true ↔
      ((e.type = some "crypt" ∨ e.fstype = some "crypto_LUKS") ∨
        ∃ ch ∈ e.children,
          ch.type = some "crypt" ∨ ch.fstype = some "crypto_LUKS")) ∧
    detect_luks_encryption none = false ∧
    detect_luks_encryption (some []) = false := by
  refine ⟨?_, rfl, rfl⟩
  intro e rest
  simp [detect_luks_encryption, is_crypt_type, List.any_eq_true]

/-- C9: on every run whose effective uid is not 0, the process exits with
status 1 with an empty trace — before any device enumeration, any external
tool invocation, and any prompt.  (The spec states no root-privilege
precondition; the code enforces one.) -/
theorem c9_root_required (env : Env) (fuel : Nat) (h : env.euid ≠ 0) :
    main_run env fuel = (Outcome.exited 1, []) := by
  have hr : check_root_privileges env.euid = false := by
    simp [check_root_privileges, h]
  simp [main_run, hr]

/-- C9, witness: the non-root environment exits 1 with an empty trace. -/
theorem c9_witness : main_run envNonRoot 3 = (Outcome.exited 1, []) :=
  c9_root_required envNonRoot 3 (by decide)

/-- C4, counterexample: a run in which the encryption confirmation input
mismatches the sentence — the process terminates (with status 0, via
`sys.exit(0)`) instead of re-prompting, refuting "never terminates the
process". -/
theorem c4_counterexample :
    (main_run envC4 3).1 = Outcome.exited 0 ∧
    Event.confirmEncryptInput "nope" ∈ (main_run envC4 3).2 ∧
    "nope" ≠ encrypt_confirmation_text := by
  decide

/-- C4, amended: a mismatched confirmation sentence (at the encrypt gate or
at the re-encrypt gate) is not recovered by re-prompting: it terminates the
run immediately via `sys.exit(0)` — a non-fatal, operator-cancel exit
status — with no disk mutation having occurred. -/
theorem c4_confirmation_mismatch_amended :
    (∀ env dev c fuel,
      get_partition_table_type (env.parted_out dev) = "gpt" →
      confirm_gate_accepts (env.stdin c) encrypt_confirmation_text = false →
      (encrypt_tail env dev c fuel).1 = Outcome.exited 0 ∧
      ∀ e ∈ (encrypt_tail env dev c fuel).2, mutatesDisk e = false) ∧
    (∀ env dev c fuel,
      pyLower (pyStrip (env.stdin c)) = "re-encrypt" →
      confirm_gate_accepts (env.stdin (c + 1))
        reencrypt_confirmation_text = false →
      (action_loop env dev c (fuel + 1)).1 = ActRes.exit (Outcome.exited 0) ∧
      ∀ e ∈ (action_loop env dev c (fuel + 1)).2, mutatesDisk e = false) := by
  constructor
  · intro env dev c fuel hpt hcg
    have heq : (get_partition_table_type (env.parted_out dev) != "gpt") = false := by
      simp [hpt]
    simp only [encrypt_tail, heq, Bool.false_eq_true, if_false, hcg,
      Bool.not_false, if_true]
    refine ⟨by trivial, ?_⟩
    intro e he
    simp only [List.cons_append, List.nil_append, List.mem_cons,
      List.not_mem_nil, or_false] at he
    rcases he with rfl | rfl | rfl | rfl <;> rfl
  · intro env dev c fuel ha hcg
    have h1 : (("re-encrypt" : String) == "exit") = false := by decide
    have h2 : (("re-encrypt" : String) == "open") = false := by decide
    have h3 : (("re-encrypt" : String) == "re-encrypt") = true := by decide
    simp only [action_loop, ha, h1, h2, h3, Bool.false_eq_true, if_false,
      if_true, hcg]
    refine ⟨by trivial, ?_⟩
    intro e he
    simp only [List.cons_append, List.nil_append, List.mem_cons,
      List.not_mem_nil, or_false] at he
    rcases he with rfl | rfl | rfl <;> rfl

/-- C4, witness: the two mismatch scenarios at concrete environments. -/
theorem c4_witness :
    ((encrypt_tail envC4 "/dev/sdb" 1 3).1 = Outcome.exited 0 ∧
      ∀ e ∈ (encrypt_tail envC4 "/dev/sdb" 1 3).2, mutatesDisk e = false) ∧
    ((action_loop envReenc "/dev/sdb" 1 3).1 = ActRes.exit (Outcome.exited 0) ∧
      ∀ e ∈ (action_loop envReenc "/dev/sdb" 1 3).2, mutatesDisk e = false) :=
  ⟨c4_confirmation_mismatch_amended.1 envC4 "/dev/sdb" 1 3
      (by decide) (by decide),
   c4_confirmation_mismatch_amended.2 envReenc "/dev/sdb" 1 2
      (by decide) (by decide)⟩

/-- C6: every device record returned by the catalog stems from an
enumeration entry of type `"disk"` whose removable flag is true and whose
lower-cased name does not contain the NVMe-identifying substring. -/
theorem c6_catalog_devices (blocks : List LsblkEntry) (d : DeviceRec)
    (hd : d ∈ get_block_devices blocks) :
    ∃ b ∈ blocks, b.type = some "disk" ∧ b.rm.getD false = true ∧
      pyContains (pyLower b.name) "nvme" = false ∧ d = mk_device_rec b := by
  induction blocks with
  | nil => simp [get_block_devices] at hd
  | cons b rest ih =>
    by_cases hk : keep_block b = true
    case pos =>
      simp only [get_block_devices, hk, if_true] at hd
      rcases List.mem_cons.mp hd with rfl | hd
      · refine ⟨b, by simp, ?_, ?_, ?_, rfl⟩ <;>
        · simp only [keep_block, Bool.and_eq_true, beq_iff_eq,
            Bool.not_eq_true'] at hk
          tauto
      · obtain ⟨b', hb', hprops⟩ := ih hd
        exact ⟨b', List.mem_cons_of_mem _ hb', hprops⟩
    case neg =>
      have hk' : keep_block b = false := by simpa using hk
      simp only [get_block_devices, hk', Bool.false_eq_true, if_false] at hd
      obtain ⟨b', hb', hprops⟩ := ih hd
      exact ⟨b', List.mem_cons_of_mem _ hb', hprops⟩

/-- C6, witness: the surviving record of the one-entry listing. -/
theorem c6_witness :
    ∃ b ∈ [sdbEntry], b.type = some "disk" ∧ b.rm.getD false = true ∧
      pyContains (pyLower b.name) "nvme" = false ∧
      mk_device_rec sdbEntry = mk_device_rec b :=
  c6_catalog_devices [sdbEntry] (mk_device_rec sdbEntry) (by decide)

/-- C7: a passphrase pair is accepted exactly when both entries are equal
and the length is at least 8; the collection loop returns only such a
passphrase (entered identically at two consecutive prompts), and a
non-conforming pair makes the loop continue with the next pair. -/
theorem c7_passphrase_policy :
    (∀ p1 p2, accepts_pass_pair p1 p2 = true ↔ (p1 = p2 ∧ 8 ≤ p1.length)) ∧
    (∀ stdin c fuel p c2,
      (collect_passphrase stdin c fuel).1 = some (p, c2) →
      8 ≤ p.length ∧ ∃ i, p = stdin i ∧ stdin i = stdin (i + 1)) ∧
    (∀ stdin c fuel, accepts_pass_pair (stdin c) (stdin (c + 1)) = false →
      (collect_passphrase stdin c (fuel + 1)).1 =
        (collect_passphrase stdin (c + 2) fuel).1) := by
  have hacc : ∀ p1 p2 : String, accepts_pass_pair p1 p2 = true ↔
      (p1 = p2 ∧ 8 ≤ p1.length) := by
    intro p1 p2
    simp [accepts_pass_pair, Nat.not_lt]
  refine ⟨hacc, ?_, ?_⟩
  · intro stdin c fuel
    induction fuel generalizing c with
    | zero => intro p c2 h; simp [collect_passphrase] at h
    | succ fuel ih =>
      intro p c2 h
      by_cases hp : accepts_pass_pair (stdin c) (stdin (c + 1)) = true
      case pos =>
        simp only [collect_passphrase, hp, if_true, Option.some.injEq,
          Prod.mk.injEq] at h
        obtain ⟨hp1, -⟩ := h
        obtain ⟨he, hl⟩ := (hacc _ _).mp hp
        subst hp1
        exact ⟨hl, c, rfl, he⟩
      case neg =>
        have hp' : accepts_pass_pair (stdin c) (stdin (c + 1)) = false := by
          simpa using hp
        simp only [collect_passphrase, hp', Bool.false_eq_true, if_false] at h
        exact ih (c + 2) p c2 h
  · intro stdin c fuel hrej
    simp [collect_passphrase, hrej]

/-- C7, witness: a short matching pair is skipped and the long matching
pair is the passphrase the loop returns. -/
theorem c7_witness :
    8 ≤ ("longenough1" : String).length ∧
    ∃ i, ("longenough1" : String) = stdinC7 i ∧ stdinC7 i = stdinC7 (i + 1) :=
  c7_passphrase_policy.2.1 stdinC7 0 2 "longenough1" 4 (by decide)

/-- C8: in both open paths, a nonempty mapper name whose
`/dev/mapper/{name}` path already exists leads to a fatal exit with status
1 and the LUKS open tool is never invoked. -/
theorem c8_name_conflict :
    (∀ env dev c, pyStrip (env.stdin c) ≠ "" →
      env.mapper_exists ("/dev/mapper/" ++ pyStrip (env.stdin c)) = true →
      (open_branch env dev c).1 = Outcome.exited 1 ∧
      ∀ e ∈ (open_branch env dev c).2, isLuksOpenEvent e = false) ∧
    (∀ env dev c, pyStrip (env.stdin c) ≠ "" →
      env.mapper_exists ("/dev/mapper/" ++ pyStrip (env.stdin c)) = true →
      (post_format_open env dev c).1 = Outcome.exited 1 ∧
      ∀ e ∈ (post_format_open env dev c).2, isLuksOpenEvent e = false) := by
  constructor
  · intro env dev c hne hex
    have hne' : (pyStrip (env.stdin c) == "") = false := by
      simpa using hne
    simp only [open_branch, hne', Bool.false_eq_true, if_false, hex, if_true]
    refine ⟨by trivial, ?_⟩
    intro e he
    simp only [List.cons_append, List.nil_append, List.mem_cons,
      List.not_mem_nil, or_false] at he
    rcases he with rfl | rfl <;> rfl
  · intro env dev c hne hex
    have hne' : (pyStrip (env.stdin c) == "") = false := by
      simpa using hne
    simp only [post_format_open, hne', Bool.false_eq_true, if_false, hex,
      if_true]
    refine ⟨by trivial, ?_⟩
    intro e he
    simp only [List.cons_append, List.nil_append, List.mem_cons,
      List.not_mem_nil, or_false] at he
    rcases he with rfl | rfl <;> rfl

/-- C8, witness: both open paths on the all-mappers-exist environment. -/
theorem c8_witness :
    ((open_branch envConflict "/dev/sdb" 0).1 = Outcome.exited 1 ∧
      ∀ e ∈ (open_branch envConflict "/dev/sdb" 0).2,
        isLuksOpenEvent e = false) ∧
    ((post_format_open envConflict "/dev/sdb" 0).1 = Outcome.exited 1 ∧
      ∀ e ∈ (post_format_open envConflict "/dev/sdb" 0).2,
        isLuksOpenEvent e = false) :=
  ⟨c8_name_conflict.1 envConflict "/dev/sdb" 0 (by decide) (by decide),
   c8_name_conflict.2 envConflict "/dev/sdb" 0 (by decide) (by decide)⟩

/-- C10: an empty (or all-whitespace) mapper-name input is fatal in both
open paths — exit status 1 immediately after the single mapper prompt,
with no re-prompt; in the post-format path this happens after the device
has already been formatted (the trace contains the format invocation) and
before the open tool is ever invoked. -/
theorem c10_empty_mapper_fatal :
    (∀ env dev c, pyStrip (env.stdin c) = "" →
      open_branch env dev c =
        (Outcome.exited 1, [Event.promptShown mapper_prompt_enc])) ∧
    (∀ env dev c, pyStrip (env.stdin c) = "" →
      post_format_open env dev c =
        (Outcome.exited 1, [Event.promptShown mapper_prompt_post])) ∧
    (∀ env dev c fuel,
      get_partition_table_type (env.parted_out dev) = "gpt" →
      confirm_gate_accepts (env.stdin c) encrypt_confirmation_text = true →
      accepts_pass_pair (env.stdin (c + 1)) (env.stdin (c + 2)) = true →
      env.luks_format_ok = true →
      pyStrip (env.stdin (c + 3)) = "" →
      (encrypt_tail env dev c (fuel + 1)).1 = Outcome.exited 1 ∧
      Event.toolLuksFormat dev ∈ (encrypt_tail env dev c (fuel + 1)).2 ∧
      ∀ e ∈ (encrypt_tail env dev c (fuel + 1)).2,
        isLuksOpenEvent e = false) := by
  have hopen : ∀ env (dev : String) c, pyStrip (env.stdin c) = "" →
      open_branch env dev c =
        (Outcome.exited 1, [Event.promptShown mapper_prompt_enc]) := by
    intro env dev c hm
    simp [open_branch, hm]
  have hpost : ∀ env (dev : String) c, pyStrip (env.stdin c) = "" →
      post_format_open env dev c =
        (Outcome.exited 1, [Event.promptShown mapper_prompt_post]) := by
    intro env dev c hm
    simp [post_format_open, hm]
  refine ⟨hopen, hpost, ?_⟩
  intro env dev c fuel hpt hcg hpp hfo hm
  have heq : (get_partition_table_type (env.parted_out dev) != "gpt") = false := by
    simp [hpt]
  have hcoll : collect_passphrase env.stdin (c + 1) (fuel + 1) =
      (some (env.stdin (c + 1), c + 1 + 2),
        [Event.promptShown passphrase_prompt,
          Event.promptShown passphrase_confirm_prompt]) := by
    simp [collect_passphrase, hpp]
  have hpost' := hpost env dev (c + 1 + 2) (by
    have : c + 1 + 2 = c + 3 := by omega
    rw [this]; exact hm)
  simp only [encrypt_tail, heq, Bool.false_eq_true, if_false, hcg,
    Bool.not_true, hcoll, hfo, if_true, hpost']
  refine ⟨by trivial, by simp, ?_⟩
  intro e he
  simp only [List.cons_append, List.nil_append, List.append_nil,
    List.mem_cons, List.mem_append, List.not_mem_nil, or_false] at he
  rcases he with rfl | rfl | rfl | rfl | rfl | rfl | rfl | rfl | rfl <;> rfl

/-- C10, witness: both open paths on a blank mapper answer, and the full
formatting tail of `envEmptyMapper` exiting 1 after the format but before
any open invocation. -/
theorem c10_witness :
    open_branch envEmptyMapper "/dev/sdb" 4 =
      (Outcome.exited 1, [Event.promptShown mapper_prompt_enc]) ∧
    post_format_open envEmptyMapper "/dev/sdb" 4 =
      (Outcome.exited 1, [Event.promptShown mapper_prompt_post]) ∧
    ((encrypt_tail envEmptyMapper "/dev/sdb" 1 3).1 = Outcome.exited 1 ∧
      Event.toolLuksFormat "/dev/sdb" ∈
        (encrypt_tail envEmptyMapper "/dev/sdb" 1 3).2 ∧
      ∀ e ∈ (encrypt_tail envEmptyMapper "/dev/sdb" 1 3).2,
        isLuksOpenEvent e = false) :=
  ⟨c10_empty_mapper_fatal.1 envEmptyMapper "/dev/sdb" 4 (by decide),
   c10_empty_mapper_fatal.2.1 envEmptyMapper "/dev/sdb" 4 (by decide),
   c10_empty_mapper_fatal.2.2 envEmptyMapper "/dev/sdb" 1 2 (by decide)
     (by decide) (by decide) (by decide) (by decide)⟩

/-- C1, witness: the complete encrypt run of `envHappy` reaches the format
invocation, and the gating conclusions hold of its concrete preceding
segment. -/
theorem c1_witness :
    Event.ptChecked "gpt" ∈ happyPre ∧
    Event.confirmEncryptInput encrypt_confirmation_text ∈ happyPre ∧
    ∀ e ∈ happyPre, mutatesDisk e = false :=
  c1_format_requires_gates envHappy 3 happyPre happyPost "/dev/sdb"
    (by decide)

/-- C3, witness: the gate equivalence applied to a concrete padded
input. -/
theorem c3_witness :
    pyStrip "  I understand and want to encrypt this device  " =
      encrypt_confirmation_text :=
  (c3_confirmation_gate_amended.1
    "  I understand and want to encrypt this device  "
    encrypt_confirmation_text).mp (by decide)

/-- C5, witness: the detection equivalence applied to a concrete
crypt-typed entry. -/
theorem c5_witness :
    detect_luks_encryption (some [cryptEntry]) = true :=
  (c5_detect_encryption_iff.1 cryptEntry []).mpr (Or.inl (Or.inl rfl))
